import Mathlib

/-
Verification of the LibAFL generators module (src/libafl/src/generators/mod.rs).

The module produces byte-sequence fuzzing inputs: two native randomized
strategies (RandBytesGenerator, RandPrintablesGenerator), an adapter turning a
bytes generator into a GeneralizedInput generator, and a Python bridge
(PythonGenerator) dispatching between native generators and a foreign object.

Embedding conventions: `&mut state` becomes explicit state passing (the
functions return the new state alongside the result); machine integers are
modelled as Nat with `% 256` where the source truncates with `as u8`;
`Result<T, Error>` becomes `Except Error T`; a Rust panic/abort (the
`.unwrap()` on the foreign call path) is modelled as the `none` case of an
outer `Option`, distinct from the `Except.error` channel.
-/

namespace LibAFLGen

/-- Modelled from the spec: the fuzzing `State` (state::HasRand, not under
src/) is externally owned, holds the RNG, and is otherwise opaque engine
context; `rand` is the RNG state exposed by `rand_mut`, `extra` the rest. -/
structure FuzzState (ρ ε : Type) where
  rand : ρ
  extra : ε
deriving DecidableEq

/-- Modelled from the spec: the RNG collaborator (bolts/rands `Rand`, not
under src/) exposes `below(bound)` returning a value in [0, bound) and
`choose(items)` performing a uniform pick from `items`; both advance the RNG
state. We model the interface as a record of state-passing functions;
`choose` is specialized to byte lists, the only use in this module. -/
structure Rand (ρ : Type) where
  below : Nat → ρ → Nat × ρ
  choose : List Nat → ρ → Nat × ρ

/-- A well-behaved RNG per the spec's interface contract: `below(bound)`
lands in [0, bound) for positive bounds, and `choose` returns a member of a
non-empty list. -/
def Rand.Good {ρ : Type} (R : Rand ρ) : Prop :=
  (∀ bound r, 0 < bound → (R.below bound r).1 < bound) ∧
  (∀ xs r, xs ≠ [] → (R.choose xs r).1 ∈ xs)

/-- Modelled from the spec: `BytesInput` (inputs/bytes, not under src/) is an
owned byte sequence; we model it as the sequence itself. -/
abbrev BytesInput := List Nat

/-- Modelled from the spec: the engine-wide `Error` type (not under src/);
the generators never construct one, so a single placeholder variant
suffices. -/
inductive Error where
  | err : String → Error
deriving DecidableEq

/-- The maximum size of dummy bytes generated by _dummy generator methods. -/
def DUMMY_BYTES_MAX : Nat := 64

/-- Generates random bytes. -/
structure RandBytesGenerator where
  max_size : Nat
deriving DecidableEq

/-- The byte-drawing loop of `RandBytesGenerator::generate`:
`(0..size).map(|_| state.rand_mut().below(256) as u8)`, collected in draw
order; `as u8` is the `% 256` truncation. -/
def drawBytes {ρ : Type} (R : Rand ρ) : Nat → ρ → List Nat × ρ
  | 0, r => ([], r)
  | n + 1, r =>
    let p := R.below 256 r
    let q := drawBytes R n p.2
    (p.1 % 256 :: q.1, q.2)

/-- `RandBytesGenerator::generate`: draw `size = below(max_size)`, coerce a
zero draw to 1, then draw `size` bytes each `below(256) as u8`. -/
def RandBytesGenerator.generate {ρ ε : Type} (R : Rand ρ) (g : RandBytesGenerator)
    (s : FuzzState ρ ε) : Except Error (BytesInput × FuzzState ρ ε) :=
  let sz := R.below g.max_size s.rand
  let size := if sz.1 = 0 then 1 else sz.1
  let bs := drawBytes R size sz.2
  Except.ok (bs.1, FuzzState.mk bs.2 s.extra)

/-- `RandBytesGenerator::generate_dummy`: `min(max_size, DUMMY_BYTES_MAX)`
zero bytes; the state argument is never used. -/
def RandBytesGenerator.generate_dummy {ρ ε : Type} (g : RandBytesGenerator)
    (s : FuzzState ρ ε) : BytesInput × FuzzState ρ ε :=
  (List.replicate (min g.max_size DUMMY_BYTES_MAX) 0, s)

/-- The byte values of the source's printables string
"0123456789ABCDEFGHIJKLMNOPQRSTUVWXYZabcdefghijklmnopqrstuvwxyz \t\n!..."
listed as ASCII codes in source order: digits, uppercase, lowercase,
space, tab, newline, then the 32 ASCII punctuation characters. -/
def printables : List Nat :=
  [48, 49, 50, 51, 52, 53, 54, 55, 56, 57,
   65, 66, 67, 68, 69, 70, 71, 72, 73, 74, 75, 76, 77, 78, 79, 80,
   81, 82, 83, 84, 85, 86, 87, 88, 89, 90,
   97, 98, 99, 100, 101, 102, 103, 104, 105, 106, 107, 108, 109, 110,
   111, 112, 113, 114, 115, 116, 117, 118, 119, 120, 121, 122,
   32, 9, 10,
   33, 34, 35, 36, 37, 38, 39, 40, 41, 42, 43, 44, 45, 46, 47,
   58, 59, 60, 61, 62, 63, 64,
   91, 92, 93, 94, 95, 96,
   123, 124, 125, 126]

/-- Generates random printable characters. -/
structure RandPrintablesGenerator where
  max_size : Nat
deriving DecidableEq

/-- The byte-drawing loop of `RandPrintablesGenerator::generate`:
`(0..size).map(|_| *state.rand_mut().choose(printables))` in draw order. -/
def drawPrintables {ρ : Type} (R : Rand ρ) : Nat → ρ → List Nat × ρ
  | 0, r => ([], r)
  | n + 1, r =>
    let p := R.choose printables r
    let q := drawPrintables R n p.2
    (p.1 :: q.1, q.2)

/-- `RandPrintablesGenerator::generate`: identical sizing and zero-coercion
to `RandBytesGenerator::generate`, each byte chosen from `printables`. -/
def RandPrintablesGenerator.generate {ρ ε : Type} (R : Rand ρ)
    (g : RandPrintablesGenerator) (s : FuzzState ρ ε) :
    Except Error (BytesInput × FuzzState ρ ε) :=
  let sz := R.below g.max_size s.rand
  let size := if sz.1 = 0 then 1 else sz.1
  let bs := drawPrintables R size sz.2
  Except.ok (bs.1, FuzzState.mk bs.2 s.extra)

/-- `RandPrintablesGenerator::generate_dummy`: `min(max_size,
DUMMY_BYTES_MAX)` zero bytes; the state argument is never used. -/
def RandPrintablesGenerator.generate_dummy {ρ ε : Type} (g : RandPrintablesGenerator)
    (s : FuzzState ρ ε) : BytesInput × FuzzState ρ ε :=
  (List.replicate (min g.max_size DUMMY_BYTES_MAX) 0, s)

/-- A concrete RNG over a stream of drawn numbers, used to realize explicit
draw sequences: each call consumes the head and reduces it into range. -/
def streamRand : Rand (List Nat) :=
  Rand.mk
    (fun bound r => (r.headD 0 % bound, r.tail))
    (fun xs r => (xs.getD (r.headD 0 % xs.length) 0, r.tail))

/-- Modelled from the spec: `GeneralizedInput` (inputs module, not under
src/) is the richer, structurally-annotated input representation; the
conversion from a byte sequence is lossless, so we model the part the
adapter uses: the underlying bytes. -/
structure GeneralizedInput where
  bytes : List Nat
deriving DecidableEq

/-- An arbitrary inner generator with `Input = BytesInput`: the pair of
`Generator`-contract operations, state-passing style. -/
structure BytesGenerator (ρ ε : Type) where
  generate : FuzzState ρ ε → Except Error (BytesInput × FuzzState ρ ε)
  generate_dummy : FuzzState ρ ε → BytesInput × FuzzState ρ ε

/-- A Generator that produces `GeneralizedInput`s from a wrapped
`BytesInput` generator. -/
structure GeneralizedInputBytesGenerator (ρ ε : Type) where
  bytes_generator : BytesGenerator ρ ε

/-- `GeneralizedInputBytesGenerator::generate`:
`Ok(self.bytes_generator.generate(state)?.into())` — forward, propagate the
error with `?`, convert the bytes losslessly. -/
def GeneralizedInputBytesGenerator.generate {ρ ε : Type}
    (g : GeneralizedInputBytesGenerator ρ ε) (s : FuzzState ρ ε) :
    Except Error (GeneralizedInput × FuzzState ρ ε) :=
  match g.bytes_generator.generate s with
  | Except.ok p => Except.ok (GeneralizedInput.mk p.1, p.2)
  | Except.error e => Except.error e

/-- `GeneralizedInputBytesGenerator::generate_dummy`: forward to the inner
generator and convert. -/
def GeneralizedInputBytesGenerator.generate_dummy {ρ ε : Type}
    (g : GeneralizedInputBytesGenerator ρ ε) (s : FuzzState ρ ε) :
    GeneralizedInput × FuzzState ρ ε :=
  let p := g.bytes_generator.generate_dummy s
  (GeneralizedInput.mk p.1, p.2)

/-- Modelled from the spec: the failure kinds of the foreign (Python) call
path — a missing foreign member or a type mismatch when extracting the
returned bytes (pyo3 `PyErr`, external). -/
inductive PyErr where
  | missingMember : String → PyErr
  | typeMismatch : PyErr
deriving DecidableEq

/-- Modelled from the spec: an opaque foreign object reference. Its two
named members `generate` and `generate_dummy` are invoked with the wrapped
state as sole argument and their results extracted as byte sequences; we
model the whole lock-acquire/call/extract sequence of each member as one
fallible state-passing function. -/
structure PyObject (ρ ε : Type) where
  callGenerate : FuzzState ρ ε → Except PyErr (List Nat × FuzzState ρ ε)
  callGenerateDummy : FuzzState ρ ε → Except PyErr (List Nat × FuzzState ρ ε)

/-- `PyObjectGenerator`: holds the foreign object reference. -/
structure PyObjectGenerator (ρ ε : Type) where
  inner : PyObject ρ ε

/-- `PyObjectGenerator::generate`: cross into the foreign runtime and
`.unwrap()` the result — a foreign failure panics (aborts), modelled as
`none`; a success is wrapped as `Ok(BytesInput::new(bytes))`. The
`Except.error` channel of the inner result is never forwarded. -/
def PyObjectGenerator.generate {ρ ε : Type} (g : PyObjectGenerator ρ ε)
    (s : FuzzState ρ ε) : Option (Except Error (BytesInput × FuzzState ρ ε)) :=
  match g.inner.callGenerate s with
  | Except.ok p => some (Except.ok (p.1, p.2))
  | Except.error _ => none

/-- `PyObjectGenerator::generate_dummy`: same foreign call path for the
`generate_dummy` member, also `.unwrap()`ed (abort on failure). -/
def PyObjectGenerator.generate_dummy {ρ ε : Type} (g : PyObjectGenerator ρ ε)
    (s : FuzzState ρ ε) : Option (BytesInput × FuzzState ρ ε) :=
  match g.inner.callGenerateDummy s with
  | Except.ok p => some (p.1, p.2)
  | Except.error _ => none

/-- The Bridge's closed tagged union: native rand-bytes handle, native
printables handle, or foreign handle (the `Py<...>` handle indirection of
the native variants is collapsed to the held generator value). -/
inductive PythonGeneratorWrapper (ρ ε : Type) where
  | RandBytes : RandBytesGenerator → PythonGeneratorWrapper ρ ε
  | RandPrintables : RandPrintablesGenerator → PythonGeneratorWrapper ρ ε
  | Python : PyObjectGenerator ρ ε → PythonGeneratorWrapper ρ ε

/-- `PythonGenerator`: the Bridge, holding its variant. -/
structure PythonGenerator (ρ ε : Type) where
  wrapper : PythonGeneratorWrapper ρ ε

/-- `PythonGenerator::new_rand_bytes`. -/
def PythonGenerator.new_rand_bytes {ρ ε : Type} (g : RandBytesGenerator) :
    PythonGenerator ρ ε :=
  PythonGenerator.mk (PythonGeneratorWrapper.RandBytes g)

/-- `PythonGenerator::new_rand_printables`. -/
def PythonGenerator.new_rand_printables {ρ ε : Type} (g : RandPrintablesGenerator) :
    PythonGenerator ρ ε :=
  PythonGenerator.mk (PythonGeneratorWrapper.RandPrintables g)

/-- `PythonGenerator::new_py`. -/
def PythonGenerator.new_py {ρ ε : Type} (obj : PyObject ρ ε) : PythonGenerator ρ ε :=
  PythonGenerator.mk (PythonGeneratorWrapper.Python (PyObjectGenerator.mk obj))

/-- `PythonGenerator::unwrap_py`: `Some(pyo.inner.clone())` on the Python
variant (a reference clone of the same foreign object), `None` otherwise. -/
def PythonGenerator.unwrap_py {ρ ε : Type} (g : PythonGenerator ρ ε) :
    Option (PyObject ρ ε) :=
  match g.wrapper with
  | PythonGeneratorWrapper.Python pyo => some pyo.inner
  | _ => none

/-- `impl Generator for PythonGenerator`, `generate`: dispatch on the
variant. The dispatch arms are modelled from the spec (the `unwrap_me_body`
macro lives outside src/): native variants dispatch directly to the
corresponding embedded implementation with no boundary crossing; the Python
variant takes the foreign call path. The native arms cannot abort, hence
always `some`. -/
def PythonGenerator.generate {ρ ε : Type} (R : Rand ρ) (g : PythonGenerator ρ ε)
    (s : FuzzState ρ ε) : Option (Except Error (BytesInput × FuzzState ρ ε)) :=
  match g.wrapper with
  | PythonGeneratorWrapper.RandBytes gb => some (gb.generate R s)
  | PythonGeneratorWrapper.RandPrintables gp => some (gp.generate R s)
  | PythonGeneratorWrapper.Python po => po.generate s

/-- `impl Generator for PythonGenerator`, `generate_dummy`: same dispatch
for the dummy operation. -/
def PythonGenerator.generate_dummy {ρ ε : Type} (g : PythonGenerator ρ ε)
    (s : FuzzState ρ ε) : Option (BytesInput × FuzzState ρ ε) :=
  match g.wrapper with
  | PythonGeneratorWrapper.RandBytes gb => some (gb.generate_dummy s)
  | PythonGeneratorWrapper.RandPrintables gp => some (gp.generate_dummy s)
  | PythonGeneratorWrapper.Python po => po.generate_dummy s

/-- A concrete foreign object whose members always fail (as if the Python
object lacked the `generate` members), for exercising the abort path. -/
def failingPyObject : PyObject (List Nat) Unit :=
  PyObject.mk (fun _ => Except.error (PyErr.missingMember "generate"))
    (fun _ => Except.error (PyErr.missingMember "generate_dummy"))

/-- A concrete inner bytes generator for exercising the adapter:
`RandBytesGenerator` with `max_size = 5` driven by `streamRand`. -/
def bytesGen5 : BytesGenerator (List Nat) Unit :=
  BytesGenerator.mk
    (fun s => RandBytesGenerator.generate streamRand (RandBytesGenerator.mk 5) s)
    (fun s => RandBytesGenerator.generate_dummy (RandBytesGenerator.mk 5) s)

theorem streamRand_good : streamRand.Good := by
  constructor
  · intro bound r hb
    exact Nat.mod_lt _ hb
  · intro xs r hxs
    have hlen : 0 < xs.length := List.length_pos.mpr hxs
    have hidx : r.headD 0 % xs.length < xs.length := Nat.mod_lt _ hlen
    show xs.getD (r.headD 0 % xs.length) 0 ∈ xs
    rw [List.getD_eq_getElem?_getD, List.getElem?_eq_getElem hidx]
    exact List.getElem_mem hidx

theorem drawBytes_length {ρ : Type} (R : Rand ρ) :
    ∀ (n : Nat) (r : ρ), (drawBytes R n r).1.length = n := by
  intro n
  induction n with
  | zero => intro r; rfl
  | succ k ih =>
    intro r
    simp [drawBytes, ih]

theorem drawPrintables_length {ρ : Type} (R : Rand ρ) :
    ∀ (n : Nat) (r : ρ), (drawPrintables R n r).1.length = n := by
  intro n
  induction n with
  | zero => intro r; rfl
  | succ k ih =>
    intro r
    simp [drawPrintables, ih]

theorem drawPrintables_mem {ρ : Type} (R : Rand ρ)
    (hc : ∀ xs r, xs ≠ [] → (R.choose xs r).1 ∈ xs) :
    ∀ (n : Nat) (r : ρ), ∀ b ∈ (drawPrintables R n r).1, b ∈ printables := by
  intro n
  induction n with
  | zero => intro r b hb; simp [drawPrintables] at hb
  | succ k ih =>
    intro r b hb
    simp only [drawPrintables, List.mem_cons] at hb
    rcases hb with hb | hb
    · subst hb
      exact hc printables _ (by decide)
    · exact ih _ b hb

/-- The coerced size `if sz = 0 then 1 else sz` of a draw `sz < max_size`
is at least 1, at most `max_size - 1` when `max_size > 1`, and exactly 1
when `max_size = 1`. -/
theorem size_coerce_bounds (max_size sz : Nat) (h : sz < max_size) :
    1 ≤ (if sz = 0 then 1 else sz) ∧
    (1 < max_size → (if sz = 0 then 1 else sz) ≤ max_size - 1) ∧
    (max_size = 1 → (if sz = 0 then 1 else sz) = 1) := by
  by_cases h0 : sz = 0 <;> simp [h0] <;> omega

/-- Claim C1: for every `max_size ≥ 1` and every RNG whose `below(bound)`
returns a value in [0, bound), `RandBytesGenerator.generate` and
`RandPrintablesGenerator.generate` return `Ok` with a non-empty byte
sequence whose length lies in [1, max_size - 1] when `max_size > 1` and is
exactly 1 when `max_size = 1` (a zero size draw is coerced to 1); no error
is ever returned from their own logic. -/
theorem C1_native_generate_ok_bounded {ρ ε : Type} (R : Rand ρ) (hR : R.Good)
    (g : RandBytesGenerator) (p : RandPrintablesGenerator)
    (hg : 1 ≤ g.max_size) (hp : 1 ≤ p.max_size) (s t : FuzzState ρ ε) :
    ((RandBytesGenerator.generate R g s).isOk = true ∧
      ∀ bs s2, RandBytesGenerator.generate R g s = Except.ok (bs, s2) →
        1 ≤ bs.length ∧ (1 < g.max_size → bs.length ≤ g.max_size - 1) ∧
        (g.max_size = 1 → bs.length = 1)) ∧
    ((RandPrintablesGenerator.generate R p t).isOk = true ∧
      ∀ bs t2, RandPrintablesGenerator.generate R p t = Except.ok (bs, t2) →
        1 ≤ bs.length ∧ (1 < p.max_size → bs.length ≤ p.max_size - 1) ∧
        (p.max_size = 1 → bs.length = 1)) := by
  constructor
  · constructor
    · rfl
    · intro bs s2 h
      have hsz := hR.1 g.max_size s.rand (by omega)
      have hbnd := size_coerce_bounds g.max_size (R.below g.max_size s.rand).1 hsz
      simp only [RandBytesGenerator.generate, Except.ok.injEq, Prod.mk.injEq] at h
      have hlen : bs.length =
          (if (R.below g.max_size s.rand).1 = 0 then 1
           else (R.below g.max_size s.rand).1) := by
        rw [← h.1, drawBytes_length]
      rw [hlen]
      exact hbnd
  · constructor
    · rfl
    · intro bs t2 h
      have hsz := hR.1 p.max_size t.rand (by omega)
      have hbnd := size_coerce_bounds p.max_size (R.below p.max_size t.rand).1 hsz
      simp only [RandPrintablesGenerator.generate, Except.ok.injEq, Prod.mk.injEq] at h
      have hlen : bs.length =
          (if (R.below p.max_size t.rand).1 = 0 then 1
           else (R.below p.max_size t.rand).1) := by
        rw [← h.1, drawPrintables_length]
      rw [hlen]
      exact hbnd

/-- Witness for C1: both generators, driven by the concrete `streamRand`
with `max_size = 10`, report `Ok`. -/
theorem C1_native_generate_ok_bounded_witness :
    (RandBytesGenerator.generate streamRand (RandBytesGenerator.mk 10)
        (FuzzState.mk [0, 200] ())).isOk = true ∧
    (RandPrintablesGenerator.generate streamRand (RandPrintablesGenerator.mk 10)
        (FuzzState.mk [3, 7] ())).isOk = true :=
  ⟨(C1_native_generate_ok_bounded streamRand streamRand_good (RandBytesGenerator.mk 10)
      (RandPrintablesGenerator.mk 10) (by decide) (by decide) (FuzzState.mk [0, 200] ())
      (FuzzState.mk [3, 7] ())).1.1,
   (C1_native_generate_ok_bounded streamRand streamRand_good (RandBytesGenerator.mk 10)
      (RandPrintablesGenerator.mk 10) (by decide) (by decide) (FuzzState.mk [0, 200] ())
      (FuzzState.mk [3, 7] ())).2.1⟩

/-- Claim C2 counterexample: the source's printable alphabet has 97
characters (the 95 printable ASCII characters plus tab and newline), not
95 as the claim states. -/
theorem C2_printables_not_95 :
    printables.length = 97 ∧ printables.length ≠ 95 := by
  decide

/-- Claim C2 (amended: the alphabet has 97 characters, not 95): for every
`max_size` and every well-behaved RNG, every byte produced by
`RandPrintablesGenerator.generate` is a member of the fixed 97-character
alphabet (digits, upper/lower case letters, space/tab/newline, and the 32
standard ASCII punctuation characters); no produced byte lies outside it,
each byte being drawn by the RNG's uniform `choose` over that alphabet. -/
theorem C2_printables_alphabet {ρ ε : Type} (R : Rand ρ) (hR : R.Good)
    (g : RandPrintablesGenerator) (s : FuzzState ρ ε) :
    printables.length = 97 ∧
    ∀ bs s2, RandPrintablesGenerator.generate R g s = Except.ok (bs, s2) →
      ∀ b ∈ bs, b ∈ printables := by
  refine ⟨by decide, ?_⟩
  intro bs s2 h b hb
  simp only [RandPrintablesGenerator.generate, Except.ok.injEq, Prod.mk.injEq] at h
  rw [← h.1] at hb
  exact drawPrintables_mem R hR.2 _ _ b hb

/-- Witness for C2: the first byte of a concrete printables run is in the
alphabet. -/
theorem C2_printables_alphabet_witness : (55 : Nat) ∈ printables :=
  (C2_printables_alphabet streamRand streamRand_good (RandPrintablesGenerator.mk 10)
      (FuzzState.mk [3, 7] ())).2 [55, 48, 48] (FuzzState.mk [] ()) rfl 55 (by decide)

/-- Claim C3: a Bridge (`PythonGenerator`) built from a native generator
instance and called with a given state produces, for both `generate` and
`generate_dummy`, output bit-identical to calling the native instance
directly under the same RNG trace (the native dispatch arms are exactly
the native calls, and never abort). -/
theorem C3_bridge_transparency {ρ ε : Type} (R : Rand ρ) (gb : RandBytesGenerator)
    (gp : RandPrintablesGenerator) (s : FuzzState ρ ε) :
    (PythonGenerator.new_rand_bytes gb : PythonGenerator ρ ε).generate R s =
      some (gb.generate R s) ∧
    (PythonGenerator.new_rand_bytes gb : PythonGenerator ρ ε).generate_dummy s =
      some (gb.generate_dummy s) ∧
    (PythonGenerator.new_rand_printables gp : PythonGenerator ρ ε).generate R s =
      some (gp.generate R s) ∧
    (PythonGenerator.new_rand_printables gp : PythonGenerator ρ ε).generate_dummy s =
      some (gp.generate_dummy s) :=
  ⟨rfl, rfl, rfl, rfl⟩

/-- Claim C4: any failure during the foreign call path of the Bridge
aborts the calling context (modelled as `none`) rather than surfacing as an
`Except.error`; the Foreign-variant `generate` never returns through the
error channel. -/
theorem C4_foreign_failure_aborts {ρ ε : Type} (R : Rand ρ) (obj : PyObject ρ ε)
    (s : FuzzState ρ ε) (e : PyErr) (h : obj.callGenerate s = Except.error e) :
    (PythonGenerator.new_py obj).generate R s = none ∧
    (∀ (obj2 : PyObject ρ ε) (t : FuzzState ρ ε) (er : Error),
      (PythonGenerator.new_py obj2).generate R t ≠ some (Except.error er)) ∧
    (∀ e2, obj.callGenerateDummy s = Except.error e2 →
      (PythonGenerator.new_py obj).generate_dummy s = none) := by
  refine ⟨?_, ?_, ?_⟩
  · simp [PythonGenerator.generate, PythonGenerator.new_py, PyObjectGenerator.generate, h]
  · intro obj2 t er
    simp only [PythonGenerator.generate, PythonGenerator.new_py, PyObjectGenerator.generate]
    cases h2 : obj2.callGenerate t <;> simp
  · intro e2 h2
    simp [PythonGenerator.generate_dummy, PythonGenerator.new_py,
      PyObjectGenerator.generate_dummy, h2]

/-- Witness for C4: the Bridge over a concrete always-failing foreign
object aborts on `generate`. -/
theorem C4_foreign_failure_aborts_witness :
    (PythonGenerator.new_py failingPyObject).generate streamRand (FuzzState.mk [] ()) =
      none :=
  (C4_foreign_failure_aborts streamRand failingPyObject (FuzzState.mk [] ())
      (PyErr.missingMember "generate") rfl).1

/-- Claim C5: for every `max_size` and every state, `generate_dummy` of
both native generators returns exactly `min(max_size, 64)` zero bytes; the
printables dummy is all zeros and not alphabet-constrained (0 is not in the
printable alphabet), and with `max_size = 100` the dummy has 64 zero
bytes. -/
theorem C5_dummy_zero_bytes {ρ ε : Type} (g : RandBytesGenerator)
    (p : RandPrintablesGenerator) (s t : FuzzState ρ ε) :
    (g.generate_dummy s).1 = List.replicate (min g.max_size 64) 0 ∧
    (p.generate_dummy t).1 = List.replicate (min p.max_size 64) 0 ∧
    (∀ b ∈ (p.generate_dummy t).1, b = 0) ∧
    (0 : Nat) ∉ printables ∧
    ((RandBytesGenerator.mk 100).generate_dummy s).1 = List.replicate 64 0 ∧
    ((RandPrintablesGenerator.mk 100).generate_dummy t).1 = List.replicate 64 0 := by
  refine ⟨rfl, rfl, ?_, by decide, rfl, rfl⟩
  intro b hb
  exact List.eq_of_mem_replicate hb

/-- Witness for C5: concrete dummy of the printables generator with
`max_size = 5`. -/
theorem C5_dummy_zero_bytes_witness :
    ((RandPrintablesGenerator.mk 5).generate_dummy
        (FuzzState.mk ([] : List Nat) ())).1 = List.replicate (min 5 64) 0 :=
  (C5_dummy_zero_bytes (RandBytesGenerator.mk 5) (RandPrintablesGenerator.mk 5)
      (FuzzState.mk [] ()) (FuzzState.mk [] ())).2.1

/-- Claim C6: `generate_dummy` of the native generators never reads or
advances RNG state: for any two states (in particular differently-seeded
RNGs) and identical `max_size`, the two dummy outputs are identical, and
the RNG component is left untouched. -/
theorem C6_dummy_rng_independent {ρ ε : Type} (g : RandBytesGenerator)
    (p : RandPrintablesGenerator) (s1 s2 : FuzzState ρ ε) :
    (g.generate_dummy s1).1 = (g.generate_dummy s2).1 ∧
    (p.generate_dummy s1).1 = (p.generate_dummy s2).1 ∧
    (g.generate_dummy s1).2.rand = s1.rand ∧
    (p.generate_dummy s1).2.rand = s1.rand :=
  ⟨rfl, rfl, rfl, rfl⟩

/-- Claim C7: the Adapter (`GeneralizedInputBytesGenerator`) wrapping any
inner bytes generator produces, for both `generate` and `generate_dummy`
under an identical RNG trace, a value whose underlying bytes equal the
inner generator's output bytes, propagating the state and error channel
unchanged: no behavior beyond the lossless conversion. -/
theorem C7_adapter_content_preservation {ρ ε : Type} (G : BytesGenerator ρ ε)
    (s : FuzzState ρ ε) :
    (∀ bs s2, G.generate s = Except.ok (bs, s2) →
      (GeneralizedInputBytesGenerator.mk G).generate s =
        Except.ok (GeneralizedInput.mk bs, s2)) ∧
    (∀ e, G.generate s = Except.error e →
      (GeneralizedInputBytesGenerator.mk G).generate s = Except.error e) ∧
    ((GeneralizedInputBytesGenerator.mk G).generate_dummy s =
      (GeneralizedInput.mk (G.generate_dummy s).1, (G.generate_dummy s).2)) := by
  refine ⟨?_, ?_, rfl⟩
  · intro bs s2 h
    simp [GeneralizedInputBytesGenerator.generate, h]
  · intro e h
    simp [GeneralizedInputBytesGenerator.generate, h]

/-- Witness for C7: the adapter over a concrete rand-bytes inner generator
yields the inner generator's bytes wrapped losslessly. -/
theorem C7_adapter_content_preservation_witness :
    (GeneralizedInputBytesGenerator.mk bytesGen5).generate (FuzzState.mk [0, 200] ()) =
      Except.ok (GeneralizedInput.mk [200], FuzzState.mk [] ()) :=
  (C7_adapter_content_preservation bytesGen5 (FuzzState.mk [0, 200] ())).1 [200]
    (FuzzState.mk [] ()) rfl

/-- Claim C8: with `max_size = 10` and RNG draw sequence [0, 200],
`RandBytesGenerator.generate` yields exactly the one-byte sequence [200]
(the zero size draw is coerced to length 1 and the next draw becomes the
single byte); and with `max_size = 1`, `generate` always yields a sequence
of exactly one byte for every in-range RNG. -/
theorem C8_concrete_traces {ρ ε : Type} (R : Rand ρ) (hR : R.Good)
    (s : FuzzState ρ ε) :
    (RandBytesGenerator.generate streamRand (RandBytesGenerator.mk 10)
        (FuzzState.mk [0, 200] ()) = Except.ok ([200], FuzzState.mk [] ())) ∧
    (∃ b s2, RandBytesGenerator.generate R (RandBytesGenerator.mk 1) s =
      Except.ok ([b], s2)) := by
  refine ⟨rfl, ?_⟩
  have h0 := hR.1 1 s.rand (by omega)
  have hz : (R.below 1 s.rand).1 = 0 := Nat.lt_one_iff.mp h0
  refine ⟨(R.below 256 (R.below 1 s.rand).2).1 % 256,
    FuzzState.mk (R.below 256 (R.below 1 s.rand).2).2 s.extra, ?_⟩
  simp [RandBytesGenerator.generate, hz, drawBytes]

/-- Witness for C8: the concrete Scenario A trace, via the theorem applied
to `streamRand`. -/
theorem C8_concrete_traces_witness :
    RandBytesGenerator.generate streamRand (RandBytesGenerator.mk 10)
        (FuzzState.mk [0, 200] ()) = Except.ok ([200], FuzzState.mk [] ()) :=
  (C8_concrete_traces streamRand streamRand_good (FuzzState.mk [7] ())).1

/-- Claim C9: `unwrap_py` returns the held foreign object (`some`) exactly
when the Bridge's variant is Foreign, and `none` for the two native
variants; in particular `unwrap_py (new_py obj) = some obj`. -/
theorem C9_unwrap_py_foreign_only {ρ ε : Type} (obj : PyObject ρ ε)
    (gb : RandBytesGenerator) (gp : RandPrintablesGenerator)
    (b : PythonGenerator ρ ε) :
    (PythonGenerator.new_py obj).unwrap_py = some obj ∧
    (PythonGenerator.new_rand_bytes gb : PythonGenerator ρ ε).unwrap_py = none ∧
    (PythonGenerator.new_rand_printables gp : PythonGenerator ρ ε).unwrap_py = none ∧
    ((∃ o, b.unwrap_py = some o) ↔
      (∃ po, b.wrapper = PythonGeneratorWrapper.Python po)) := by
  refine ⟨rfl, rfl, rfl, ?_⟩
  obtain ⟨w⟩ := b
  cases w with
  | RandBytes g2 => simp [PythonGenerator.unwrap_py]
  | RandPrintables g2 => simp [PythonGenerator.unwrap_py]
  | Python po => simp [PythonGenerator.unwrap_py]

/-- Claim C10: `generate_dummy` of both native generators leaves the passed
state entirely unchanged — not merely the RNG — for every `max_size` and
every state. -/
theorem C10_dummy_state_unchanged {ρ ε : Type} (g : RandBytesGenerator)
    (p : RandPrintablesGenerator) (s : FuzzState ρ ε) :
    (g.generate_dummy s).2 = s ∧ (p.generate_dummy s).2 = s :=
  ⟨rfl, rfl⟩

end LibAFLGen
